import Mathlib

/-!
Verification of the AIRMX Homebridge plugin core (`src/index.ts`): the
accessory registry lifecycle, telemetry routing, and the capability
get/set handlers of `AirmxProAccessory`.  JavaScript numbers that the
code only ever uses as integers are modelled as `Int`; the host's
characteristic constants carry their HAP numeric values.
-/

/-- Device configuration entry (`interface Device`): an id and a signing key. -/
structure Device where
  id : Nat
  key : String
deriving DecidableEq, Repr

/-- The cached status snapshot kept in `AccessoryContext.status`: the seven
fields `Pick`-ed from `EagleStatusData` by the telemetry listener. -/
structure StatusSnapshot where
  power : Int
  mode : Int
  cadr : Int
  g4Percent : Int
  carbonPercent : Int
  hepaPercent : Int
  version : String
deriving DecidableEq, Repr

/-- The `AccessoryContext` stored on each platform accessory: the configured
device plus an optional status snapshot (absent until telemetry arrives). -/
structure AccessoryContext where
  device : Device
  status : Option StatusSnapshot
deriving DecidableEq, Repr

/-- A fully populated control command (`EagleControlData`). -/
structure EagleControlData where
  power : Int
  heatStatus : Int
  mode : Int
  cadr : Int
  denoise : Int
deriving DecidableEq, Repr

/-- An inbound telemetry record (`EagleStatus`) as consumed by the
`onEagleUpdate` listener: the device id plus the fields the listener reads. -/
structure EagleStatus where
  deviceId : Nat
  power : Int
  mode : Int
  cadr : Int
  g4Percent : Int
  carbonPercent : Int
  hepaPercent : Int
  version : String
deriving DecidableEq, Repr

/-- The `EagleMode` enum: `Manual = 0`. -/
def EagleMode.Manual : Int := 0

/-- The `EagleMode` enum: `Ai = 1`. -/
def EagleMode.Ai : Int := 1

/-- HAP characteristic constant `Active.INACTIVE = 0`. -/
def Active.INACTIVE : Int := 0

/-- HAP characteristic constant `Active.ACTIVE = 1`. -/
def Active.ACTIVE : Int := 1

/-- HAP characteristic constant `CurrentAirPurifierState.INACTIVE = 0`. -/
def CurrentAirPurifierState.INACTIVE : Int := 0

/-- HAP characteristic constant `CurrentAirPurifierState.PURIFYING_AIR = 2`. -/
def CurrentAirPurifierState.PURIFYING_AIR : Int := 2

/-- HAP characteristic constant `TargetAirPurifierState.MANUAL = 0`. -/
def TargetAirPurifierState.MANUAL : Int := 0

/-- HAP characteristic constant `TargetAirPurifierState.AUTO = 1`. -/
def TargetAirPurifierState.AUTO : Int := 1

/-- HAP characteristic constant `FilterChangeIndication.FILTER_OK = 0`. -/
def FilterChangeIndication.FILTER_OK : Int := 0

/-- HAP characteristic constant `FilterChangeIndication.CHANGE_FILTER = 1`. -/
def FilterChangeIndication.CHANGE_FILTER : Int := 1

/-- The stub control data used as the base command when no status is known
(`const stubControl` in the source). -/
def stubControl : EagleControlData :=
  { power := 0, heatStatus := 0, mode := 0, cadr := 47, denoise := 0 }

/-- A `Partial<EagleControlData>` as passed to `sendRawControl`: each field
optionally present. -/
structure ControlPatch where
  power : Option Int
  heatStatus : Option Int
  mode : Option Int
  cadr : Option Int
  denoise : Option Int
deriving DecidableEq, Repr

/-- The spread `{ ...base, ...patch }`: fields present in the patch override
the base. -/
def spreadControl (base : EagleControlData) (p : ControlPatch) : EagleControlData :=
  { power := p.power.getD base.power
    heatStatus := p.heatStatus.getD base.heatStatus
    mode := p.mode.getD base.mode
    cadr := p.cadr.getD base.cadr
    denoise := p.denoise.getD base.denoise }

/-- An observable outbound effect of a capability write: either a raw
`airmx.control(deviceId, command)` call, or one of the convenience calls on
`airmx.device(deviceId)`. -/
inductive Effect where
  | rawControl (deviceId : Nat) (cmd : EagleControlData)
  | deviceOn (deviceId : Nat)
  | deviceOff (deviceId : Nat)
  | deviceAi (deviceId : Nat)
  | deviceCadr (deviceId : Nat) (cadr : Int)
deriving DecidableEq, Repr

/-- The private `sendRawControl` method: sends `{ ...stubControl, ...data }`
to the accessory's device. -/
def sendRawControl (ctx : AccessoryContext) (data : ControlPatch) : Effect :=
  Effect.rawControl ctx.device.id (spreadControl stubControl data)

/-- The `handleFirmwareRevisionGet` handler: `status?.version || 'N/A'`.
JavaScript `||` falls back on any falsy value, so an empty version string
also yields `"N/A"`. -/
def handleFirmwareRevisionGet (ctx : AccessoryContext) : String :=
  match ctx.status with
  | none => "N/A"
  | some s => if s.version = "" then "N/A" else s.version

/-- The `handleActiveGet` handler. -/
def handleActiveGet (ctx : AccessoryContext) : Int :=
  match ctx.status with
  | none => Active.INACTIVE
  | some s => if s.power = 1 then Active.ACTIVE else Active.INACTIVE

/-- The `handleCurrentAirPurifierStateGet` handler. -/
def handleCurrentAirPurifierStateGet (ctx : AccessoryContext) : Int :=
  match ctx.status with
  | none => CurrentAirPurifierState.INACTIVE
  | some s =>
    if s.power = 1 then CurrentAirPurifierState.PURIFYING_AIR
    else CurrentAirPurifierState.INACTIVE

/-- The `handleTargetAirPurifierStateGet` handler. -/
def handleTargetAirPurifierStateGet (ctx : AccessoryContext) : Int :=
  match ctx.status with
  | none => TargetAirPurifierState.MANUAL
  | some s =>
    if s.mode = EagleMode.Ai then TargetAirPurifierState.AUTO
    else TargetAirPurifierState.MANUAL

/-- The `handleRotationSpeedGet` handler: `status?.cadr || 0` (a cadr of 0 is
falsy, so the result is 0 in that case as well). -/
def handleRotationSpeedGet (ctx : AccessoryContext) : Int :=
  match ctx.status with
  | none => 0
  | some s => if s.cadr = 0 then 0 else s.cadr

/-- The `handleFilterChangeIndicationGet` handler. -/
def handleFilterChangeIndicationGet (ctx : AccessoryContext) : Int :=
  match ctx.status with
  | none => FilterChangeIndication.FILTER_OK
  | some s =>
    let maxPercent := max s.g4Percent (max s.carbonPercent s.hepaPercent)
    let threshold := 80
    if maxPercent > threshold then FilterChangeIndication.CHANGE_FILTER
    else FilterChangeIndication.FILTER_OK

/-- The `handleFilterLifeLevelGet` handler. -/
def handleFilterLifeLevelGet (ctx : AccessoryContext) : Int :=
  match ctx.status with
  | none => 100
  | some s => 100 - max s.g4Percent (max s.carbonPercent s.hepaPercent)

/-- The `handleActiveSet` handler: returns the (unchanged) context together
with the outbound effects it issues. -/
def handleActiveSet (ctx : AccessoryContext) (value : Int) :
    AccessoryContext × List Effect :=
  let isOn := value = Active.ACTIVE
  match ctx.status with
  | none =>
    (ctx, [sendRawControl ctx ⟨some (if isOn then 1 else 0), none, none, none, none⟩])
  | some _ =>
    (ctx, [if isOn then Effect.deviceOn ctx.device.id else Effect.deviceOff ctx.device.id])

/-- The `handleTargetAirPurifierStateSet` handler. -/
def handleTargetAirPurifierStateSet (ctx : AccessoryContext) (value : Int) :
    AccessoryContext × List Effect :=
  let isAuto := value = TargetAirPurifierState.AUTO
  match ctx.status with
  | none =>
    (ctx, [sendRawControl ctx
      ⟨some 1, none, some (if isAuto then EagleMode.Ai else EagleMode.Manual), none, none⟩])
  | some s =>
    (ctx, [if isAuto then Effect.deviceAi ctx.device.id
           else Effect.deviceCadr ctx.device.id s.cadr])

/-- The `handleRotationSpeedSet` handler. -/
def handleRotationSpeedSet (ctx : AccessoryContext) (value : Int) :
    AccessoryContext × List Effect :=
  match ctx.status with
  | none =>
    (ctx, [sendRawControl ctx ⟨some 1, none, some EagleMode.Manual, some value, none⟩])
  | some _ =>
    (ctx, [Effect.deviceCadr ctx.device.id value])

/-- A JavaScript `Map` keyed by uuid strings, as an insertion-ordered
association list. -/
abbrev AccessoryMap := List (String × AccessoryContext)

/-- Lookup in the accessories map (`Map.get`). -/
def mapGet : AccessoryMap → String → Option AccessoryContext
  | [], _ => none
  | (k, v) :: rest, key => if k = key then some v else mapGet rest key

/-- Insertion into the accessories map (`Map.set`): replaces in place when the
key is present, appends otherwise. -/
def mapSet : AccessoryMap → String → AccessoryContext → AccessoryMap
  | [], key, v => [(key, v)]
  | (k, w) :: rest, key, v =>
    if k = key then (key, v) :: rest else (k, w) :: mapSet rest key v

/-- The mutable platform fields the registry logic touches: the
`accessories` map and the `discoveredUuids` list. -/
structure PlatformState where
  accessories : AccessoryMap
  discoveredUuids : List String

/-- A freshly constructed platform: both collections empty. -/
def emptyPlatform : PlatformState := ⟨[], []⟩

/-- The `configureAccessory` host callback: caches the restored accessory in
the map under its uuid. -/
def configureAccessory (st : PlatformState) (acc : String × AccessoryContext) :
    PlatformState :=
  { st with accessories := mapSet st.accessories acc.1 acc.2 }

/-- The private `registerDevices` method: for each configured device, compute
`gen device.id` (modelling `api.hap.uuid.generate(device.id.toString())`),
reuse an existing accessory or create and register a fresh one with an empty
status, and record the uuid in `discoveredUuids`. -/
def registerDevices (gen : Nat → String) (devices : List Device)
    (st : PlatformState) : PlatformState :=
  devices.foldl
    (fun s d =>
      let uuid := gen d.id
      match mapGet s.accessories uuid with
      | some _ => { s with discoveredUuids := s.discoveredUuids ++ [uuid] }
      | none =>
        { accessories := mapSet s.accessories uuid ⟨d, none⟩
          discoveredUuids := s.discoveredUuids ++ [uuid] })
    st

/-- The private `cleanUpObsolete` method: iterates the accessories map and
calls `api.unregisterPlatformAccessories` on every entry whose uuid is not in
`discoveredUuids`.  The platform state itself is not modified; the second
component lists the accessories unregistered from the host. -/
def cleanUpObsolete (st : PlatformState) :
    PlatformState × List (String × AccessoryContext) :=
  (st, st.accessories.filter (fun e => !(decide (e.1 ∈ st.discoveredUuids))))

/-- The seven fields the `onEagleUpdate` listener copies out of an inbound
status record. -/
def snapshotOf (s : EagleStatus) : StatusSnapshot :=
  { power := s.power, mode := s.mode, cadr := s.cadr, g4Percent := s.g4Percent
    carbonPercent := s.carbonPercent, hepaPercent := s.hepaPercent
    version := s.version }

/-- The `onEagleUpdate` listener: look up the accessory under the uuid
generated from the reporting device id; if found, overwrite its cached status
wholesale; otherwise do nothing. -/
def onEagleUpdate (gen : Nat → String) (s : EagleStatus) (st : PlatformState) :
    PlatformState :=
  match mapGet st.accessories (gen s.deviceId) with
  | none => st
  | some acc =>
    { st with
      accessories :=
        mapSet st.accessories (gen s.deviceId)
          { acc with status := some (snapshotOf s) } }

/-- A second launch of the Homebridge process: the host replays every cached
accessory through `configureAccessory` into a fresh platform instance. -/
def relaunch (st : PlatformState) : PlatformState :=
  st.accessories.foldl configureAccessory emptyPlatform

/-- A lookup after an insertion under the same key yields the inserted value. -/
theorem mapGet_mapSet_self (m : AccessoryMap) (k : String) (v : AccessoryContext) :
    mapGet (mapSet m k v) k = some v := by
  induction m with
  | nil => simp [mapSet, mapGet]
  | cons e rest ih =>
    obtain ⟨ke, ve⟩ := e
    by_cases h : ke = k
    · simp [mapSet, mapGet, h]
    · simp [mapSet, mapGet, h, ih]

/-- A successful lookup pinpoints a pair of the association list. -/
theorem mapGet_mem {m : AccessoryMap} {k : String} {v : AccessoryContext}
    (h : mapGet m k = some v) : (k, v) ∈ m := by
  induction m with
  | nil => simp [mapGet] at h
  | cons e rest ih =>
    obtain ⟨ke, ve⟩ := e
    by_cases hk : ke = k
    · simp [mapGet, hk] at h
      subst hk h
      exact List.mem_cons_self _ _
    · simp [mapGet, hk] at h
      exact List.mem_cons_of_mem _ (ih h)

/-- C1: when the status snapshot is absent, every capability write sends the
stub command with only the fields implied by the write overridden — writing
Active sends the stub with `power` set from the value, writing the target
state sends the stub with `power := 1` and `mode` set from the value, and
writing RotationSpeed = n sends `{power := 1, heatStatus := 0, mode := Manual,
cadr := n, denoise := 0}`. -/
theorem writeWithUnknownStatusSendsStubOverride (ctx : AccessoryContext)
    (h : ctx.status = none) :
    (∀ v, (handleActiveSet ctx v).2 =
      [Effect.rawControl ctx.device.id
        ⟨if v = Active.ACTIVE then 1 else 0, 0, EagleMode.Manual, 47, 0⟩]) ∧
    (∀ v, (handleTargetAirPurifierStateSet ctx v).2 =
      [Effect.rawControl ctx.device.id
        ⟨1, 0, if v = TargetAirPurifierState.AUTO then EagleMode.Ai else EagleMode.Manual,
          47, 0⟩]) ∧
    (∀ n, (handleRotationSpeedSet ctx n).2 =
      [Effect.rawControl ctx.device.id
        ⟨1, 0, EagleMode.Manual, n, 0⟩]) := by
  refine ⟨fun v => ?_, fun v => ?_, fun n => ?_⟩
  · by_cases hv : v = (1 : Int) <;>
      simp [handleActiveSet, sendRawControl, spreadControl, stubControl, h,
        Active.ACTIVE, EagleMode.Manual, hv]
  · by_cases hv : v = (1 : Int) <;>
      simp [handleTargetAirPurifierStateSet, sendRawControl, spreadControl,
        stubControl, h, TargetAirPurifierState.AUTO, EagleMode.Manual,
        EagleMode.Ai, hv]
  · simp [handleRotationSpeedSet, sendRawControl, spreadControl, stubControl,
      h, EagleMode.Manual]

/-- Closed instance of C1: with no snapshot, writing Active=on on device 7
sends `{power:1, heatStatus:0, mode:Manual, cadr:47, denoise:0}` and writing
RotationSpeed=30 sends `{power:1, heatStatus:0, mode:Manual, cadr:30,
denoise:0}`. -/
theorem writeWithUnknownStatusSendsStubOverride_witness :
    (handleActiveSet ⟨⟨7, "key"⟩, none⟩ Active.ACTIVE).2 =
      [Effect.rawControl 7 ⟨1, 0, 0, 47, 0⟩] ∧
    (handleRotationSpeedSet ⟨⟨7, "key"⟩, none⟩ 30).2 =
      [Effect.rawControl 7 ⟨1, 0, 0, 30, 0⟩] := by
  have h := writeWithUnknownStatusSendsStubOverride ⟨⟨7, "key"⟩, none⟩ rfl
  exact ⟨by simpa [Active.ACTIVE, EagleMode.Manual] using h.1 Active.ACTIVE,
    by simpa [EagleMode.Manual] using h.2.2 30⟩

/-- C2: when the status snapshot is absent, all seven capability reads return
their documented defaults: Active=INACTIVE, CurrentAirPurifierState=INACTIVE,
TargetAirPurifierState=MANUAL, RotationSpeed=0, FilterChangeIndication=
FILTER_OK, FilterLifeLevel=100, FirmwareRevision="N/A". -/
theorem defaultReadsWhenStatusAbsent (ctx : AccessoryContext)
    (h : ctx.status = none) :
    handleActiveGet ctx = Active.INACTIVE ∧
    handleCurrentAirPurifierStateGet ctx = CurrentAirPurifierState.INACTIVE ∧
    handleTargetAirPurifierStateGet ctx = TargetAirPurifierState.MANUAL ∧
    handleRotationSpeedGet ctx = 0 ∧
    handleFilterChangeIndicationGet ctx = FilterChangeIndication.FILTER_OK ∧
    handleFilterLifeLevelGet ctx = 100 ∧
    handleFirmwareRevisionGet ctx = "N/A" := by
  simp [handleActiveGet, handleCurrentAirPurifierStateGet,
    handleTargetAirPurifierStateGet, handleRotationSpeedGet,
    handleFilterChangeIndicationGet, handleFilterLifeLevelGet,
    handleFirmwareRevisionGet, h]

/-- Closed instance of C2 on a concrete accessory with no snapshot. -/
theorem defaultReadsWhenStatusAbsent_witness :
    handleActiveGet ⟨⟨3, "k"⟩, none⟩ = Active.INACTIVE ∧
    handleCurrentAirPurifierStateGet ⟨⟨3, "k"⟩, none⟩ = CurrentAirPurifierState.INACTIVE ∧
    handleTargetAirPurifierStateGet ⟨⟨3, "k"⟩, none⟩ = TargetAirPurifierState.MANUAL ∧
    handleRotationSpeedGet ⟨⟨3, "k"⟩, none⟩ = 0 ∧
    handleFilterChangeIndicationGet ⟨⟨3, "k"⟩, none⟩ = FilterChangeIndication.FILTER_OK ∧
    handleFilterLifeLevelGet ⟨⟨3, "k"⟩, none⟩ = 100 ∧
    handleFirmwareRevisionGet ⟨⟨3, "k"⟩, none⟩ = "N/A" :=
  defaultReadsWhenStatusAbsent ⟨⟨3, "k"⟩, none⟩ rfl

/-- C4: the three capability set handlers return the accessory context
unchanged in every branch — a write never mutates the cached snapshot. -/
theorem writesPreserveSnapshot (ctx : AccessoryContext) (v : Int) :
    (handleActiveSet ctx v).1 = ctx ∧
    (handleTargetAirPurifierStateSet ctx v).1 = ctx ∧
    (handleRotationSpeedSet ctx v).1 = ctx := by
  cases h : ctx.status <;>
    simp [handleActiveSet, handleTargetAirPurifierStateSet,
      handleRotationSpeedSet, h]

/-- C6: with a snapshot present, FilterChangeIndication reads CHANGE_FILTER
iff the maximal filter usage percentage strictly exceeds 80, reads FILTER_OK
otherwise, and in particular reads FILTER_OK at exactly 80. -/
theorem filterChangeIndicationThreshold (ctx : AccessoryContext)
    (s : StatusSnapshot) (h : ctx.status = some s) :
    (handleFilterChangeIndicationGet ctx = FilterChangeIndication.CHANGE_FILTER ↔
      80 < max s.g4Percent (max s.carbonPercent s.hepaPercent)) ∧
    (handleFilterChangeIndicationGet ctx = FilterChangeIndication.FILTER_OK ↔
      ¬ 80 < max s.g4Percent (max s.carbonPercent s.hepaPercent)) ∧
    (max s.g4Percent (max s.carbonPercent s.hepaPercent) = 80 →
      handleFilterChangeIndicationGet ctx = FilterChangeIndication.FILTER_OK) := by
  by_cases hm : 80 < max s.g4Percent (max s.carbonPercent s.hepaPercent)
  · refine ⟨?_, ?_, ?_⟩ <;>
      simp [handleFilterChangeIndicationGet, h, hm,
        FilterChangeIndication.CHANGE_FILTER, FilterChangeIndication.FILTER_OK]
    omega
  · refine ⟨?_, ?_, ?_⟩ <;>
      simp [handleFilterChangeIndicationGet, h, hm,
        FilterChangeIndication.CHANGE_FILTER, FilterChangeIndication.FILTER_OK]

/-- Closed instance of C6: usage percentages (81, 10, 10) read CHANGE_FILTER,
and (80, 10, 10) — the exact boundary — read FILTER_OK. -/
theorem filterChangeIndicationThreshold_witness :
    handleFilterChangeIndicationGet ⟨⟨1, "k"⟩, some ⟨1, 0, 47, 81, 10, 10, "v"⟩⟩ =
      FilterChangeIndication.CHANGE_FILTER ∧
    handleFilterChangeIndicationGet ⟨⟨1, "k"⟩, some ⟨1, 0, 47, 80, 10, 10, "v"⟩⟩ =
      FilterChangeIndication.FILTER_OK :=
  ⟨(filterChangeIndicationThreshold _ ⟨1, 0, 47, 81, 10, 10, "v"⟩ rfl).1.mpr (by decide),
   (filterChangeIndicationThreshold _ ⟨1, 0, 47, 80, 10, 10, "v"⟩ rfl).2.2 (by decide)⟩

/-- C7: with a snapshot present, FilterLifeLevel reads
`100 - max(g4, carbon, hepa)`, so adding the maximal usage percentage back
always gives 100. -/
theorem filterLifeLevelComplement (ctx : AccessoryContext)
    (s : StatusSnapshot) (h : ctx.status = some s) :
    handleFilterLifeLevelGet ctx =
      100 - max s.g4Percent (max s.carbonPercent s.hepaPercent) ∧
    handleFilterLifeLevelGet ctx +
      max s.g4Percent (max s.carbonPercent s.hepaPercent) = 100 := by
  simp [handleFilterLifeLevelGet, h]

/-- Closed instance of C7 at usage percentages (30, 55, 40). -/
theorem filterLifeLevelComplement_witness :
    handleFilterLifeLevelGet ⟨⟨1, "k"⟩, some ⟨1, 0, 47, 30, 55, 40, "v"⟩⟩ =
      100 - max (30 : Int) (max 55 40) ∧
    handleFilterLifeLevelGet ⟨⟨1, "k"⟩, some ⟨1, 0, 47, 30, 55, 40, "v"⟩⟩ +
      max (30 : Int) (max 55 40) = 100 :=
  filterLifeLevelComplement _ ⟨1, 0, 47, 30, 55, 40, "v"⟩ rfl

/-- C8: with a snapshot present, writing TargetAirPurifierState=AUTO issues
the enable-AI command for the device, and writing MANUAL issues a set-cadr
command carrying the snapshot's current cadr. -/
theorem targetStateSetWithKnownStatus (ctx : AccessoryContext)
    (s : StatusSnapshot) (h : ctx.status = some s) :
    (handleTargetAirPurifierStateSet ctx TargetAirPurifierState.AUTO).2 =
      [Effect.deviceAi ctx.device.id] ∧
    (handleTargetAirPurifierStateSet ctx TargetAirPurifierState.MANUAL).2 =
      [Effect.deviceCadr ctx.device.id s.cadr] := by
  simp [handleTargetAirPurifierStateSet, h,
    TargetAirPurifierState.AUTO, TargetAirPurifierState.MANUAL]

/-- Closed instance of C8 on a device whose snapshot has cadr 62. -/
theorem targetStateSetWithKnownStatus_witness :
    (handleTargetAirPurifierStateSet ⟨⟨4, "k"⟩, some ⟨1, 0, 62, 5, 5, 5, "v"⟩⟩
        TargetAirPurifierState.AUTO).2 = [Effect.deviceAi 4] ∧
    (handleTargetAirPurifierStateSet ⟨⟨4, "k"⟩, some ⟨1, 0, 62, 5, 5, 5, "v"⟩⟩
        TargetAirPurifierState.MANUAL).2 = [Effect.deviceCadr 4 62] :=
  targetStateSetWithKnownStatus _ ⟨1, 0, 62, 5, 5, 5, "v"⟩ rfl

/-- Counterexample to C9: with a snapshot whose `version` is the empty
string, the FirmwareRevision read returns `"N/A"`, not the snapshot's
version string — the JavaScript `||` treats the empty string as falsy. -/
theorem firmwareRevisionEmptyVersionCounterexample :
    handleFirmwareRevisionGet ⟨⟨2, "k"⟩, some ⟨1, 0, 47, 0, 0, 0, ""⟩⟩ = "N/A" ∧
    ("N/A" : String) ≠ "" := by
  constructor
  · rfl
  · decide

/-- C9 amended: with a snapshot present, the FirmwareRevision read returns
the snapshot's `version` string when that string is non-empty, and returns
`"N/A"` when it is empty. -/
theorem firmwareRevisionGetKnownStatus (ctx : AccessoryContext)
    (s : StatusSnapshot) (h : ctx.status = some s) :
    (s.version ≠ "" → handleFirmwareRevisionGet ctx = s.version) ∧
    (s.version = "" → handleFirmwareRevisionGet ctx = "N/A") := by
  constructor <;> intro hv <;> simp [handleFirmwareRevisionGet, h, hv]

/-- Closed instance of the amended C9 at a snapshot with version "1.2.3". -/
theorem firmwareRevisionGetKnownStatus_witness :
    handleFirmwareRevisionGet ⟨⟨2, "k"⟩, some ⟨1, 0, 47, 0, 0, 0, "1.2.3"⟩⟩ =
      "1.2.3" :=
  (firmwareRevisionGetKnownStatus _ ⟨1, 0, 47, 0, 0, 0, "1.2.3"⟩ rfl).1 (by decide)

/-- C5: a telemetry update whose generated uuid matches no entry of the
accessories map leaves the platform state exactly as it was — no error, no
new registry entry, and every cached snapshot unchanged. -/
theorem unknownTelemetryDropped (gen : Nat → String) (s : EagleStatus)
    (st : PlatformState) (h : mapGet st.accessories (gen s.deviceId) = none) :
    onEagleUpdate gen s st = st := by
  simp [onEagleUpdate, h]

/-- Closed instance of C5: an update from device 9 on a platform that only
knows device 5 leaves the state untouched. -/
theorem unknownTelemetryDropped_witness :
    onEagleUpdate (fun n => String.append "uuid-" (Nat.repr n))
      ⟨9, 1, 0, 47, 0, 0, 0, "v"⟩
      ⟨[("uuid-5", ⟨⟨5, "k"⟩, none⟩)], ["uuid-5"]⟩ =
      ⟨[("uuid-5", ⟨⟨5, "k"⟩, none⟩)], ["uuid-5"]⟩ :=
  unknownTelemetryDropped (fun n => String.append "uuid-" (Nat.repr n))
    ⟨9, 1, 0, 47, 0, 0, 0, "v"⟩
    ⟨[("uuid-5", ⟨⟨5, "k"⟩, none⟩)], ["uuid-5"]⟩ (by decide)

/-- C10: pruning never touches the in-memory accessories map — it only emits
host unregistrations — so an accessory whose uuid was not discovered is
reported for unregistration, yet a later telemetry update for its device id
still finds the entry and overwrites its cached snapshot. -/
theorem pruneKeepsRegistryEntry (gen : Nat → String) (st : PlatformState)
    (s : EagleStatus) (acc : AccessoryContext)
    (h : mapGet st.accessories (gen s.deviceId) = some acc)
    (hobs : gen s.deviceId ∉ st.discoveredUuids) :
    (cleanUpObsolete st).1 = st ∧
    (gen s.deviceId, acc) ∈ (cleanUpObsolete st).2 ∧
    mapGet (onEagleUpdate gen s (cleanUpObsolete st).1).accessories
        (gen s.deviceId) = some { acc with status := some (snapshotOf s) } := by
  refine ⟨rfl, ?_, ?_⟩
  · simp [cleanUpObsolete, List.mem_filter]
    exact ⟨mapGet_mem h, hobs⟩
  · simp [cleanUpObsolete, onEagleUpdate, h, mapGet_mapSet_self]

/-- Closed instance of C10: device 5's accessory is pruned (uuid not
discovered), and an update from device 5 afterwards still lands in its
registry entry. -/
theorem pruneKeepsRegistryEntry_witness :
    (cleanUpObsolete ⟨[("u5", ⟨⟨5, "k"⟩, none⟩)], []⟩).1 =
      ⟨[("u5", ⟨⟨5, "k"⟩, none⟩)], []⟩ ∧
    ("u5", (⟨⟨5, "k"⟩, none⟩ : AccessoryContext)) ∈
      (cleanUpObsolete ⟨[("u5", ⟨⟨5, "k"⟩, none⟩)], []⟩).2 ∧
    mapGet (onEagleUpdate (fun _ => "u5") ⟨5, 1, 0, 40, 2, 3, 4, "v"⟩
        (cleanUpObsolete ⟨[("u5", ⟨⟨5, "k"⟩, none⟩)], []⟩).1).accessories "u5" =
      some { (⟨⟨5, "k"⟩, none⟩ : AccessoryContext) with
             status := some (snapshotOf ⟨5, 1, 0, 40, 2, 3, 4, "v"⟩) } :=
  pruneKeepsRegistryEntry (fun _ => "u5") ⟨[("u5", ⟨⟨5, "k"⟩, none⟩)], []⟩
    ⟨5, 1, 0, 40, 2, 3, 4, "v"⟩ ⟨⟨5, "k"⟩, none⟩ (by decide) (by decide)

/-- C3: pruning unregisters exactly the known accessories whose uuid was not
seen in the current pass; in the concrete lifecycle — first launch discovers
devices A and B, then a relaunch restores both from cache and discovers only
A — pruning unregisters exactly B's accessory. -/
theorem pruneObsoleteAccessories (gen : Nat → String) (A B : Device)
    (hne : gen A.id ≠ gen B.id) :
    (∀ st : PlatformState, ∀ e : String × AccessoryContext,
      e ∈ (cleanUpObsolete st).2 ↔
        e ∈ st.accessories ∧ e.1 ∉ st.discoveredUuids) ∧
    ((cleanUpObsolete
        (registerDevices gen [A]
          (relaunch (registerDevices gen [A, B] emptyPlatform)))).2).map
        Prod.fst = [gen B.id] := by
  constructor
  · intro st e
    simp [cleanUpObsolete, List.mem_filter]
  · simp [registerDevices, relaunch, emptyPlatform, configureAccessory,
      mapGet, mapSet, cleanUpObsolete, hne, Ne.symm hne]

/-- Closed instance of C3: with devices 1 and 2 mapping to uuids "ua" and
"ub", a first launch discovering both followed by a relaunch discovering only
device 1 prunes exactly the accessory with uuid "ub". -/
theorem pruneObsoleteAccessories_witness :
    ((cleanUpObsolete
        (registerDevices (fun n => if n = 1 then "ua" else "ub")
          [⟨1, "ka"⟩]
          (relaunch (registerDevices (fun n => if n = 1 then "ua" else "ub")
            [⟨1, "ka"⟩, ⟨2, "kb"⟩] emptyPlatform)))).2).map Prod.fst = ["ub"] :=
  (pruneObsoleteAccessories (fun n => if n = 1 then "ua" else "ub")
    ⟨1, "ka"⟩ ⟨2, "kb"⟩ (by decide)).2
